import Mathlib

/-
Verification development for the camera capture-and-validate harness
(camera_controller.py and test_camera_output.py).

The harness drives external tools (v4l2-ctl, ffmpeg, ffprobe) and the
filesystem.  The embedding makes those external observations explicit:

* a file on disk is `Option (List Nat)` — `none` when the path does not
  exist, `some bytes` when it exists with the given byte content (so the
  size check `os.path.getsize(p) > 0` becomes `0 < bytes.length`);
* the external decoders and probers are fields of a `World` record, each a
  pure function of the file bytes they are given, reflecting that cv2 and
  ffprobe output is determined by the file content;
* the audit log is a list of structured `LogEntry` values in the order the
  Python code writes them; `LogEntry.pass m` and `LogEntry.fail m` stand
  for the lines `PASS: m` / `FAIL: m` produced by `assert_test`, `info m`
  for a plain `self.log(m)` line, and `header`/`separator` for the two
  lines written directly by `__init__`.
-/

/-- One entry of the audit log, in the order written by the Python code. -/
inductive LogEntry where
  | header (timestamp device : String)
  | separator
  | info (msg : String)
  | pass (msg : String)
  | fail (msg : String)
deriving DecidableEq

/-- Is this entry the session header line written by `__init__`? -/
def LogEntry.isHeader : LogEntry → Bool
  | .header _ _ => true
  | _ => false

/-- Is this entry a check verdict (a `PASS:` or `FAIL:` line from `assert_test`)? -/
def LogEntry.isCheckResult : LogEntry → Bool
  | .pass _ => true
  | .fail _ => true
  | _ => false

/-- Rendering of a log entry to the message text the Python code writes
(`self.log` additionally prepends a wall-clock timestamp, which we omit). -/
def LogEntry.render : LogEntry → String
  | .header ts dev => "Audit Log - Test Session " ++ ts ++ " - Camera: " ++ dev
  | .separator => ⟨List.replicate 50 '='⟩
  | .info m => m
  | .pass m => "PASS: " ++ m
  | .fail m => "FAIL: " ++ m

/-- Shape of a cv2-decoded colour image: `shape[0]` is the height and
`shape[1]` the width. -/
structure ImgShape where
  height : Nat
  width : Nat
deriving DecidableEq

/-- The external tools, as pure functions of the bytes of the file they are
run on.  `decodeColor`/`decodeGray` model `cv2.imread` (colour shape,
respectively grayscale pixel values); `probeWH`, `probeRate` and
`probeAudio` model the three ffprobe invocations.  `probeRate` is the value
of `json.loads(stdout)["streams"][0]["r_frame_rate"]`, with `none` when the
JSON decode or either lookup fails; the other two are the raw stdout text.
Each prober takes `Option` bytes because ffprobe is run on the path whether
or not the file exists. -/
structure World where
  decodeColor : List Nat → Option ImgShape
  decodeGray : List Nat → Option (List Nat)
  probeWH : Option (List Nat) → String
  probeRate : Option (List Nat) → Option String
  probeAudio : Option (List Nat) → String

/-- Configuration of a `CameraTests` session: `fps` and `duration` from
`__init__` (defaults 30 and 5). -/
structure TestConfig where
  fps : ℚ
  duration : Nat

/-- Everything one session observes from outside: the device name and
timestamp, the external tools, the image file as seen at each retry poll of
`capture_image` (attempt index 0, 1, 2), the image and video files as seen
by the validation checks, and the video file plus captured stdout/stderr as
seen by `CameraController.record_video` right after ffmpeg exits. -/
structure SessionEnv where
  device : String
  timestamp : String
  world : World
  pollImage : Nat → Option (List Nat)
  imageFile : Option (List Nat)
  videoFile : Option (List Nat)
  recOutFile : Option (List Nat)
  recStdout : String
  recStderr : String

/-- Python `os.path.exists(p) and os.path.getsize(p) > 0` on a modelled file. -/
def fileNonEmpty : Option (List Nat) → Bool
  | none => false
  | some bs => decide (0 < bs.length)

/-- Bool test for a pattern list occurring contiguously inside a list
(Python `pat in s` on strings). -/
def listIsInfix (p : List Char) : List Char → Bool
  | [] => p.isEmpty
  | c :: rest => p.isPrefixOf (c :: rest) || listIsInfix p rest

/-- Python `pat in s` substring test. -/
def containsSubstr (s pat : String) : Bool := listIsInfix pat.data s.data

/-- Digit-string to number, `none` when empty or any character is not a
decimal digit. -/
def charsToNat (l : List Char) : Option Nat :=
  if !l.isEmpty && l.all Char.isDigit then
    some (l.foldl (fun acc c => acc * 10 + (c.toNat - 48)) 0)
  else none

/-- Split a character list on a separator character (the resulting list is
always nonempty). -/
def splitOnChar (sep : Char) : List Char → List (List Char)
  | [] => [[]]
  | c :: cs =>
    match splitOnChar sep cs with
    | [] => if c = sep then [[], []] else [[c]]
    | grp :: rest => if c = sep then [] :: grp :: rest else (c :: grp) :: rest

/-- Evaluation of an ffprobe `r_frame_rate` ratio string, modelling the
`eval(fps_str)` call of `test_video_fps` on the `num/den` strings ffprobe
emits: the quotient as an exact rational, `none` where eval would raise
(no single slash, non-digit characters, or a zero denominator, the last
raising `ZeroDivisionError`). -/
def parseRate (s : String) : Option ℚ :=
  match splitOnChar '/' s.data with
  | [numPart, denPart] =>
    match charsToNat numPart, charsToNat denPart with
    | some n, some d => if d = 0 then none else some ((n : ℚ) / (d : ℚ))
    | _, _ => none
  | _ => none

/-- Python `np.mean` of a list of grayscale pixel values, as a rational. -/
def npMean (px : List Nat) : ℚ := (px.sum : ℚ) / (px.length : ℚ)

/-- Result of `cv2.imread(self.image_path)` : `None` when the file is
missing or not decodable. -/
def imreadColor (e : SessionEnv) : Option ImgShape :=
  e.imageFile.bind e.world.decodeColor

/-- Result of `cv2.imread(self.image_path, cv2.IMREAD_GRAYSCALE)`. -/
def imreadGray (e : SessionEnv) : Option (List Nat) :=
  e.imageFile.bind e.world.decodeGray

/-- `CameraTests.test_image_exists`. -/
def test_image_exists (e : SessionEnv) : Bool :=
  fileNonEmpty e.imageFile

/-- `CameraTests.test_image_validity`: the decode succeeded. -/
def test_image_validity (e : SessionEnv) : Bool :=
  (imreadColor e).isSome

/-- `CameraTests.test_image_resolution`: the emitted log entries and the
returned verdict.  When the image cannot be loaded it logs a skip line and
returns `False`; otherwise it compares `shape[1]` and `shape[0]` to the
expected width and height (call-site defaults 1280 and 720). -/
def test_image_resolution (e : SessionEnv)
    (expected_width : Nat := 1280) (expected_height : Nat := 720) :
    List LogEntry × Bool :=
  match imreadColor e with
  | none => ([.info "Skipping resolution test: Image cannot be loaded."], false)
  | some s => ([], decide (s.width = expected_width) && decide (s.height = expected_height))

/-- `CameraTests.test_image_brightness`: log entries and verdict.  When the
grayscale decode fails it logs a skip line and returns `False`; otherwise
it checks `50 <= np.mean(img) <= 200`. -/
def test_image_brightness (e : SessionEnv) : List LogEntry × Bool :=
  match imreadGray e with
  | none => ([.info "Skipping brightness test: Image cannot be loaded."], false)
  | some px => ([], decide (50 ≤ npMean px ∧ npMean px ≤ 200))

/-- `CameraTests.test_video_exists`: `os.path.exists` only, no size check. -/
def test_video_exists (e : SessionEnv) : Bool :=
  e.videoFile.isSome

/-- `CameraTests.test_video_validity`: both `"width"` and `"height"` occur
in the ffprobe stdout. -/
def test_video_validity (e : SessionEnv) : Bool :=
  let out := e.world.probeWH e.videoFile
  containsSubstr out "\"width\"" && containsSubstr out "\"height\""

/-- `CameraTests.test_video_fps`: extract the first video stream rate
string, evaluate it as a ratio, and pass when within one frame per second
of the configured target; every lookup or evaluation failure is caught by
the `except` clause and yields `False`. -/
def test_video_fps (cfg : TestConfig) (e : SessionEnv) : Bool :=
  match e.world.probeRate e.videoFile with
  | none => false
  | some s =>
    match parseRate s with
    | none => false
    | some r => decide (|r - cfg.fps| ≤ 1)

/-- `CameraTests.test_video_audio`: `"codec_name"` occurs in the ffprobe
stdout for the first audio stream. -/
def test_video_audio (e : SessionEnv) : Bool :=
  containsSubstr (e.world.probeAudio e.videoFile) "codec_name"

/-- `CameraTests.assert_test`: the assert either succeeds, logging a PASS
line, or raises `AssertionError`, which is caught and logged as a FAIL
line; either way control returns normally. -/
def assert_test (condition : Bool) (message : String) : LogEntry :=
  if condition then .pass message else .fail message

/-- Did the poll at attempt `i` of `capture_image` see the image file
existing with non-zero size? -/
def pollOk (e : SessionEnv) (i : Nat) : Bool :=
  fileNonEmpty (e.pollImage i)

/-- The retry loop of `CameraTests.capture_image`: at each of the remaining
attempts (current attempt index `i`) sleep, test the file, and either log
success and return `True`, or log a retry line and continue; on exhaustion
log failure and return `False`. -/
def capture_image_loop (e : SessionEnv) : Nat → Nat → List LogEntry × Bool
  | _, 0 => ([.info "Image capture failed after retries."], false)
  | i, Nat.succ k =>
    if pollOk e i then ([.info "Image captured successfully."], true)
    else
      let r := capture_image_loop e (i + 1) k
      (.info ("Retrying image capture... Attempt " ++ toString (i + 1)) :: r.1, r.2)

/-- `CameraTests.capture_image`: log the capture line, trigger the
controller (its effect on the filesystem is part of `pollImage`), then run
the retry loop with `max_retries = 3`. -/
def capture_image (e : SessionEnv) : List LogEntry × Bool :=
  let r := capture_image_loop e 0 3
  (.info ("Capturing an image on " ++ e.device ++ "...") :: r.1, r.2)

/-- `CameraController.record_video`: after the ffmpeg process exits with
captured `stdout`/`stderr`, return the output path when the output file
exists with non-zero size, otherwise return the diagnostic string
embedding both captured streams. -/
def CameraController_record_video (output_path : String)
    (outFile : Option (List Nat)) (stdout stderr : String) : String :=
  if fileNonEmpty outFile then output_path
  else
    "Failed to record video. FFmpeg output:\nSTDOUT: " ++ stdout
      ++ "\nSTDERR: " ++ stderr

/-- The video output path of a session, `os.path.join(output_dir, f)` with
the default `captures` directory. -/
def video_path (e : SessionEnv) : String :=
  "captures/video_" ++ e.timestamp ++ ".mp4"

/-- `CameraTests.record_video`: log the start line, call the controller and
discard its return value, then log completion unconditionally. -/
def CameraTests_record_video (cfg : TestConfig) (e : SessionEnv) : List LogEntry :=
  let startMsg :=
    "Starting video recording on " ++ e.device ++ ": "
      ++ toString cfg.duration ++ "s at " ++ toString cfg.fps ++ " FPS..."
  let _ := CameraController_record_video (video_path e) e.recOutFile e.recStdout e.recStderr
  [.info startMsg, .info "Recording complete."]

/-- The image phase of `run_tests`: capture, then either the four image
checks or the skip line. -/
def image_phase (e : SessionEnv) : List LogEntry :=
  let cap := capture_image e
  if cap.2 then
    cap.1
      ++ [.info "Running Image Tests...",
          assert_test (test_image_exists e) "Image exists",
          assert_test (test_image_validity e) "Image is a valid JPEG file"]
      ++ ((test_image_resolution e).1
          ++ [assert_test (test_image_resolution e).2 "Image resolution is correct"])
      ++ ((test_image_brightness e).1
          ++ [assert_test (test_image_brightness e).2 "Image brightness is acceptable"])
  else
    cap.1 ++ [.info "Skipping image tests due to failed capture."]

/-- The video phase of `run_tests`: record, then the four video checks. -/
def video_phase (cfg : TestConfig) (e : SessionEnv) : List LogEntry :=
  CameraTests_record_video cfg e
    ++ [.info "Running Video Tests...",
        assert_test (test_video_exists e) "Video file exists",
        assert_test (test_video_validity e) "Video is a valid file",
        assert_test (test_video_fps cfg e) "Video FPS is correct",
        assert_test (test_video_audio e) "Audio track detected in video"]

/-- `CameraTests.run_tests`: the full sequence of log entries it appends,
ending with the completion line. -/
def run_tests (cfg : TestConfig) (e : SessionEnv) : List LogEntry :=
  ([.info ("Running Tests on Camera: " ++ e.device)]
      ++ image_phase e ++ video_phase cfg e)
    ++ [.info "Test session completed."]

/-- Result of `CameraTests.__init__`: the log file has been created
(opened with mode `w`) and holds the header line and the separator line. -/
structure InitResult where
  logExists : Bool
  log : List LogEntry

/-- `CameraTests.__init__` log effect. -/
def cameraTests_init (ts device : String) : InitResult :=
  { logExists := true
    log := [.header ts device, .separator] }

/-- The whole audit file content of one session: the `__init__` header
followed by everything `run_tests` appends. -/
def session_log (cfg : TestConfig) (e : SessionEnv) : List LogEntry :=
  (cameraTests_init e.timestamp e.device).log ++ run_tests cfg e

/-- Python truthiness of an `os.getenv` result: set and nonempty. -/
def envTruthy : Option String → Bool
  | none => false
  | some s => !s.isEmpty

/-- Python `str.lower` (ASCII range, which covers the inputs compared). -/
def pyLower (s : String) : String := ⟨s.data.map Char.toLower⟩

/-- Python `str.strip`: drop leading and trailing whitespace. -/
def pyStrip (s : String) : String :=
  ⟨(((s.data.dropWhile Char.isWhitespace).reverse).dropWhile Char.isWhitespace).reverse⟩

/-- Python `int(s)` on an already-stripped selection string: an optional
sign followed by at least one decimal digit; anything else raises
`ValueError`, modelled as `none`. -/
def pyInt (s : String) : Option Int :=
  match s.data with
  | [] => none
  | c :: rest =>
    if c = '-' then (charsToNat rest).map (fun n => -(n : Int))
    else if c = '+' then (charsToNat rest).map (fun n => (n : Int))
    else (charsToNat (c :: rest)).map (fun n => (n : Int))

/-- What the entry point observes: the detected camera list, the two
environment variables, and the interactive input line. -/
structure MainEnv where
  cameras : List String
  cameraDeviceEnv : Option String
  runningInDocker : Option String
  userInput : String

/-- Outcome of the entry point: exit with a printed message and exit code
(no session constructed), or construct and run sessions for the given
devices. -/
inductive MainOutcome where
  | exitWith (msg : String) (code : Nat)
  | runAll (devices : List String)
  | runOne (device : String)
deriving DecidableEq

/-- Devices for which a `CameraTests` session is constructed. -/
def constructedSessions : MainOutcome → List String
  | .exitWith _ _ => []
  | .runAll devices => devices
  | .runOne device => [device]

/-- The `__main__` selection logic of test_camera_output.py. -/
def mainOutcome (e : MainEnv) : MainOutcome :=
  match e.cameras with
  | [] => .exitWith "No cameras detected." 1
  | first :: _ =>
    if envTruthy e.cameraDeviceEnv then .runOne (e.cameraDeviceEnv.getD "")
    else if envTruthy e.runningInDocker then .runOne first
    else
      let choice := pyStrip e.userInput
      if pyLower choice = "all" then .runAll e.cameras
      else
        match pyInt choice with
        | none => .exitWith "Invalid input." 1
        | some n =>
          let idx := n - 1
          if idx < 0 ∨ (e.cameras.length : Int) ≤ idx then
            .exitWith "Invalid selection." 1
          else .runOne (e.cameras.getD idx.toNat "")

/-- Is the entry point in the interactive branch (cameras found, no device
override, not running in Docker)? -/
def interactiveMode (e : MainEnv) : Prop :=
  e.cameras ≠ [] ∧ envTruthy e.cameraDeviceEnv = false ∧ envTruthy e.runningInDocker = false

/-- The messages of the four image checks as asserted by `run_tests`. -/
def imageCheckMessages : List String :=
  ["Image exists", "Image is a valid JPEG file", "Image resolution is correct",
   "Image brightness is acceptable"]

/-- The messages of the four video checks as asserted by `run_tests`. -/
def videoCheckMessages : List String :=
  ["Video file exists", "Video is a valid file", "Video FPS is correct",
   "Audio track detected in video"]

/-- A world where every decode and probe fails (no tools produce output). -/
def emptyWorld : World :=
  { decodeColor := fun _ => none, decodeGray := fun _ => none,
    probeWH := fun _ => "", probeRate := fun _ => none, probeAudio := fun _ => "" }

/-- A concrete session in which no file ever materialises. -/
def baseEnv : SessionEnv :=
  { device := "/dev/video0", timestamp := "20250101_000000", world := emptyWorld,
    pollImage := fun _ => none, imageFile := none, videoFile := none,
    recOutFile := none, recStdout := "", recStderr := "" }

/-- The default configuration of `CameraTests.__init__`. -/
def cfg30 : TestConfig := { fps := 30, duration := 5 }

/-- A concrete session whose video probe reports a 30/1 frame rate. -/
def fpsEnv : SessionEnv :=
  { baseEnv with
    world := { emptyWorld with probeRate := fun _ => some "30/1" },
    videoFile := some [1] }

/-- A concrete session whose image decodes to a single grayscale pixel of
value 50. -/
def grayEnv : SessionEnv :=
  { baseEnv with
    world := { emptyWorld with decodeGray := fun _ => some [50] },
    imageFile := some [1] }

/-- A concrete session whose image decodes to a 1280x720 colour image. -/
def shapeEnv : SessionEnv :=
  { baseEnv with
    world := { emptyWorld with decodeColor := fun _ => some { height := 720, width := 1280 } },
    imageFile := some [1] }

/-- The same observations as `baseEnv` under a different session timestamp. -/
def altTimestampEnv : SessionEnv := { baseEnv with timestamp := "20250102_000000" }

/-- The same observations as `baseEnv` with different captured ffmpeg
stdout/stderr for the recording step. -/
def recFailEnv : SessionEnv := { baseEnv with recStdout := "boom", recStderr := "err" }

/-- Entry-point observation: no cameras detected. -/
def mainEnvNoCameras : MainEnv :=
  { cameras := [], cameraDeviceEnv := none, runningInDocker := none, userInput := "" }

/-- Entry-point observation: one camera, interactive, non-numeric input. -/
def mainEnvBadInput : MainEnv :=
  { cameras := ["/dev/video0"], cameraDeviceEnv := none, runningInDocker := none,
    userInput := "abc" }

/-- Entry-point observation: one camera, interactive, out-of-range index. -/
def mainEnvOutOfRange : MainEnv :=
  { cameras := ["/dev/video0"], cameraDeviceEnv := none, runningInDocker := none,
    userInput := "5" }

/-- A pattern that starts a list is found by `listIsInfix`. -/
theorem listIsInfix_of_isPrefixOf {p l : List Char} (h : p.isPrefixOf l = true) :
    listIsInfix p l = true := by
  cases l with
  | nil =>
    cases p with
    | nil => rfl
    | cons c cs => simp [List.isPrefixOf] at h
  | cons c cs => simp [listIsInfix, h]

/-- A pattern occurring in the middle of a concatenation is found by
`listIsInfix`. -/
theorem listIsInfix_append_middle (a p b : List Char) :
    listIsInfix p (a ++ (p ++ b)) = true := by
  induction a with
  | nil =>
    simp only [List.nil_append]
    exact listIsInfix_of_isPrefixOf (by simp)
  | cons c cs ih =>
    rw [List.cons_append, listIsInfix]
    simp [ih]

/-- C1: once `run_tests` starts, a failing check is only recorded as a FAIL
log entry (by `assert_test`) and never raised; for every environment —
however many of the eight checks fail — the session runs through all its
phases and the log ends with the terminal completion line. -/
theorem run_tests_always_completes (cfg : TestConfig) (e : SessionEnv) :
    (run_tests cfg e).getLast? = some (.info "Test session completed.")
    ∧ (session_log cfg e).getLast? = some (.info "Test session completed.")
    ∧ ∀ message, assert_test false message = LogEntry.fail message := by
  refine ⟨?_, ?_, fun _ => rfl⟩
  · simp only [run_tests]
    exact List.getLast?_concat _
  · simp only [session_log, run_tests, ← List.append_assoc]
    exact List.getLast?_concat _

/-- C2: immediately after `CameraTests.__init__` the log file exists and
its content has exactly one header line — and no check verdict — before
any check is logged. -/
theorem init_log_contains_single_header (ts device : String) :
    (cameraTests_init ts device).logExists = true
    ∧ (cameraTests_init ts device).log.filter LogEntry.isHeader = [.header ts device]
    ∧ (cameraTests_init ts device).log.filter LogEntry.isCheckResult = [] :=
  ⟨rfl, rfl, rfl⟩

/-- C7: after the transcoder process exits, `CameraController.record_video`
returns the output path exactly when the output file exists with non-zero
size, and otherwise returns (it cannot raise) the diagnostic string that
embeds the captured stdout and stderr. -/
theorem controller_record_video_result (output_path stdout stderr : String)
    (outFile : Option (List Nat)) :
    (fileNonEmpty outFile = true →
      CameraController_record_video output_path outFile stdout stderr = output_path)
    ∧ (fileNonEmpty outFile = false →
      CameraController_record_video output_path outFile stdout stderr
          = "Failed to record video. FFmpeg output:\nSTDOUT: " ++ stdout
            ++ "\nSTDERR: " ++ stderr
        ∧ containsSubstr (CameraController_record_video output_path outFile stdout stderr)
            stdout = true
        ∧ containsSubstr (CameraController_record_video output_path outFile stdout stderr)
            stderr = true) := by
  constructor
  · intro h
    simp [CameraController_record_video, h]
  · intro h
    have hres : CameraController_record_video output_path outFile stdout stderr
        = "Failed to record video. FFmpeg output:\nSTDOUT: " ++ stdout
          ++ "\nSTDERR: " ++ stderr := by
      simp [CameraController_record_video, h]
    refine ⟨hres, ?_, ?_⟩
    · rw [hres]
      show listIsInfix stdout.data _ = true
      simp only [String.data_append, List.append_assoc]
      exact listIsInfix_append_middle _ _ _
    · rw [hres]
      show listIsInfix stderr.data _ = true
      simp only [String.data_append]
      have h2 := listIsInfix_append_middle
        (("Failed to record video. FFmpeg output:\nSTDOUT: ".data ++ stdout.data)
          ++ "\nSTDERR: ".data) stderr.data []
      simpa using h2

/-- C7 witness: on a missing output file with captured streams `boom` and
`err`, the diagnostic return value embeds both streams. -/
theorem controller_record_video_result_witness :
    containsSubstr (CameraController_record_video "captures/video_t.mp4" none "boom" "err")
      "boom" = true
    ∧ containsSubstr (CameraController_record_video "captures/video_t.mp4" none "boom" "err")
      "err" = true :=
  ⟨((controller_record_video_result "captures/video_t.mp4" "boom" "err" none).2 rfl).2.1,
   ((controller_record_video_result "captures/video_t.mp4" "boom" "err" none).2 rfl).2.2⟩

/-- C9: each of the four image checks is a function of the image artifact
alone, and each of the four video checks a function of the video artifact
(and, for the fps check, the configured target rate): two sessions whose
external world and artifact bytes agree produce identical verdicts,
whatever their other state (timestamp, device, poll history, captured
streams). -/
theorem check_verdicts_deterministic (cfg cfg2 : TestConfig) (e1 e2 : SessionEnv)
    (hw : e1.world = e2.world) :
    (e1.imageFile = e2.imageFile →
      test_image_exists e1 = test_image_exists e2
      ∧ test_image_validity e1 = test_image_validity e2
      ∧ (test_image_resolution e1).2 = (test_image_resolution e2).2
      ∧ (test_image_brightness e1).2 = (test_image_brightness e2).2)
    ∧ (e1.videoFile = e2.videoFile →
      test_video_exists e1 = test_video_exists e2
      ∧ test_video_validity e1 = test_video_validity e2
      ∧ (cfg.fps = cfg2.fps → test_video_fps cfg e1 = test_video_fps cfg2 e2)
      ∧ test_video_audio e1 = test_video_audio e2) := by
  constructor
  · intro hi
    refine ⟨?_, ?_, ?_, ?_⟩ <;>
      simp [test_image_exists, test_image_validity, test_image_resolution,
        test_image_brightness, imreadColor, imreadGray, hi, hw]
  · intro hv
    refine ⟨?_, ?_, fun hf => ?_, ?_⟩ <;>
      simp [test_video_exists, test_video_validity, test_video_fps,
        test_video_audio, hv, hw, *]

/-- C9 witness: two sessions sharing world and artifacts but with distinct
timestamps agree on concrete verdicts. -/
theorem check_verdicts_deterministic_witness :
    test_image_exists baseEnv = test_image_exists altTimestampEnv
    ∧ test_video_exists baseEnv = test_video_exists altTimestampEnv :=
  ⟨((check_verdicts_deterministic cfg30 cfg30 baseEnv altTimestampEnv rfl).1 rfl).1,
   ((check_verdicts_deterministic cfg30 cfg30 baseEnv altTimestampEnv rfl).2 rfl).1⟩

/-- C10: the `CameraTests.record_video` wrapper discards the controller
result — its log output is the same whatever the controller observed, so
also when the controller produced the failure diagnostic — and it ends
with the unconditional `Recording complete.` line. -/
theorem record_wrapper_ignores_controller_result (cfg : TestConfig) (e1 e2 : SessionEnv)
    (hdev : e1.device = e2.device) :
    CameraTests_record_video cfg e1 = CameraTests_record_video cfg e2
    ∧ (CameraTests_record_video cfg e1).getLast? = some (.info "Recording complete.") := by
  constructor
  · simp [CameraTests_record_video, hdev]
  · rfl

/-- C10 witness: a session with empty captured streams and one whose
recording failed with captured output log identically, ending in the
completion line. -/
theorem record_wrapper_ignores_controller_result_witness :
    CameraTests_record_video cfg30 baseEnv = CameraTests_record_video cfg30 recFailEnv
    ∧ (CameraTests_record_video cfg30 baseEnv).getLast?
        = some (.info "Recording complete.") :=
  ⟨(record_wrapper_ignores_controller_result cfg30 baseEnv recFailEnv rfl).1,
   (record_wrapper_ignores_controller_result cfg30 baseEnv recFailEnv rfl).2⟩

/-- C3: the frame-rate check passes exactly when the probed rate string
evaluates as a ratio within one unit of the configured target; the string
`30/1` evaluates to 30, while `0/0`, a missing field, or any other
evaluation failure yields a FAIL verdict through the catch-all handler
rather than an exception. -/
theorem video_fps_check_spec :
    (∀ (cfg : TestConfig) (e : SessionEnv) (s : String) (r : ℚ),
      e.world.probeRate e.videoFile = some s → parseRate s = some r →
      (test_video_fps cfg e = true ↔ |r - cfg.fps| ≤ 1))
    ∧ parseRate "30/1" = some 30
    ∧ parseRate "0/0" = none
    ∧ (∀ (cfg : TestConfig) (e : SessionEnv),
      e.world.probeRate e.videoFile = some "0/0" → test_video_fps cfg e = false)
    ∧ (∀ (cfg : TestConfig) (e : SessionEnv),
      e.world.probeRate e.videoFile = none → test_video_fps cfg e = false)
    ∧ (∀ (cfg : TestConfig) (e : SessionEnv) (s : String),
      e.world.probeRate e.videoFile = some s → parseRate s = none →
      test_video_fps cfg e = false) := by
  have h301 : parseRate "30/1" = some 30 := by
    simp [parseRate, splitOnChar, charsToNat]
  have h00 : parseRate "0/0" = none := by
    simp [parseRate, splitOnChar, charsToNat]
  refine ⟨?_, h301, h00, ?_, ?_, ?_⟩
  · intro cfg e s r hs hr
    simp [test_video_fps, hs, hr]
  · intro cfg e hs
    simp [test_video_fps, hs, h00]
  · intro cfg e hs
    simp [test_video_fps, hs]
  · intro cfg e s hs hr
    simp [test_video_fps, hs, hr]

/-- C3 witness: a session probed at `30/1` with the default target of 30
frames per second passes the fps check. -/
theorem video_fps_check_spec_witness : test_video_fps cfg30 fpsEnv = true :=
  (video_fps_check_spec.1 cfg30 fpsEnv "30/1" 30 rfl video_fps_check_spec.2.1).mpr
    (by norm_num [cfg30])

/-- C5: for a decodable captured image the brightness check passes exactly
when the mean grayscale value lies in the inclusive band 50 to 200; means
of exactly 50 and 200 pass, 49 and 201 fail. -/
theorem brightness_check_band :
    (∀ (e : SessionEnv) (px : List Nat), imreadGray e = some px →
      ((test_image_brightness e).2 = true ↔ 50 ≤ npMean px ∧ npMean px ≤ 200))
    ∧ (∀ (e : SessionEnv) (px : List Nat), imreadGray e = some px → npMean px = 50 →
      (test_image_brightness e).2 = true)
    ∧ (∀ (e : SessionEnv) (px : List Nat), imreadGray e = some px → npMean px = 200 →
      (test_image_brightness e).2 = true)
    ∧ (∀ (e : SessionEnv) (px : List Nat), imreadGray e = some px → npMean px = 49 →
      (test_image_brightness e).2 = false)
    ∧ (∀ (e : SessionEnv) (px : List Nat), imreadGray e = some px → npMean px = 201 →
      (test_image_brightness e).2 = false) := by
  have key : ∀ (e : SessionEnv) (px : List Nat), imreadGray e = some px →
      ((test_image_brightness e).2 = true ↔ 50 ≤ npMean px ∧ npMean px ≤ 200) := by
    intro e px h
    simp [test_image_brightness, h]
  refine ⟨key, ?_, ?_, ?_, ?_⟩ <;> intro e px h hm
  · exact (key e px h).mpr (by rw [hm]; norm_num)
  · exact (key e px h).mpr (by rw [hm]; norm_num)
  · simp [test_image_brightness, h, hm]
    norm_num
  · simp [test_image_brightness, h, hm]
    norm_num

/-- C5 witness: an image decoding to the single grayscale pixel 50 has
mean exactly 50 and passes the brightness check. -/
theorem brightness_check_band_witness : (test_image_brightness grayEnv).2 = true :=
  brightness_check_band.2.1 grayEnv [50] rfl (by norm_num [npMean])

/-- C6: the resolution check passes exactly when the decoded image is 1280
pixels wide and 720 pixels high; an undecodable image fails, and so does a
decodable image of a different size such as 640x480. -/
theorem resolution_check_exact :
    (∀ (e : SessionEnv) (s : ImgShape), imreadColor e = some s →
      ((test_image_resolution e).2 = true ↔ s.width = 1280 ∧ s.height = 720))
    ∧ (∀ (e : SessionEnv), imreadColor e = none → (test_image_resolution e).2 = false)
    ∧ (∀ (e : SessionEnv), imreadColor e = some { height := 480, width := 640 } →
      (test_image_resolution e).2 = false) := by
  have key : ∀ (e : SessionEnv) (s : ImgShape), imreadColor e = some s →
      ((test_image_resolution e).2 = true ↔ s.width = 1280 ∧ s.height = 720) := by
    intro e s h
    simp [test_image_resolution, h]
  refine ⟨key, ?_, ?_⟩
  · intro e h
    simp [test_image_resolution, h]
  · intro e h
    simp [test_image_resolution, h]

/-- C6 witness: an image decoding to exactly 1280x720 passes the
resolution check. -/
theorem resolution_check_exact_witness : (test_image_resolution shapeEnv).2 = true :=
  (resolution_check_exact.1 shapeEnv { height := 720, width := 1280 } rfl).mpr ⟨rfl, rfl⟩

/-- assert_test records every verdict as either the PASS entry or the FAIL
entry for its message. -/
theorem assert_test_pass_or_fail (b : Bool) (m : String) :
    assert_test b m = .pass m ∨ assert_test b m = .fail m := by
  cases b
  · exact Or.inr rfl
  · exact Or.inl rfl

/-- C4: when the image file never appears with non-zero size in any of the
3 polls, `run_tests` records no PASS or FAIL verdict for any of the four
image checks, logs the skip line, and still performs video capture (the
recording-complete line) and asserts all four video checks. -/
theorem capture_failure_skips_image_checks (cfg : TestConfig) (e : SessionEnv)
    (h : ∀ i, i < 3 → pollOk e i = false) :
    (∀ m ∈ imageCheckMessages,
      LogEntry.pass m ∉ run_tests cfg e ∧ LogEntry.fail m ∉ run_tests cfg e)
    ∧ LogEntry.info "Skipping image tests due to failed capture." ∈ run_tests cfg e
    ∧ LogEntry.info "Recording complete." ∈ run_tests cfg e
    ∧ (∀ m ∈ videoCheckMessages,
      LogEntry.pass m ∈ run_tests cfg e ∨ LogEntry.fail m ∈ run_tests cfg e) := by
  have h0 := h 0 (by omega)
  have h1 := h 1 (by omega)
  have h2 := h 2 (by omega)
  refine ⟨?_, ?_, ?_, ?_⟩
  · rcases assert_test_pass_or_fail (test_video_exists e) "Video file exists" with ha1|ha1 <;>
    rcases assert_test_pass_or_fail (test_video_validity e) "Video is a valid file" with ha2|ha2 <;>
    rcases assert_test_pass_or_fail (test_video_fps cfg e) "Video FPS is correct" with ha3|ha3 <;>
    rcases assert_test_pass_or_fail (test_video_audio e) "Audio track detected in video" with ha4|ha4 <;>
    simp [imageCheckMessages, List.forall_mem_cons, run_tests, image_phase, video_phase,
          CameraTests_record_video, capture_image, capture_image_loop,
          h0, h1, h2, ha1, ha2, ha3, ha4]
  · simp [run_tests, image_phase, capture_image, capture_image_loop, h0, h1, h2]
  · simp [run_tests, video_phase, CameraTests_record_video]
  · intro m hm
    simp only [videoCheckMessages, List.mem_cons, List.not_mem_nil, or_false] at hm
    rcases hm with rfl | rfl | rfl | rfl
    · rcases assert_test_pass_or_fail (test_video_exists e) "Video file exists" with ha|ha
      · exact Or.inl (by rw [← ha]; simp [run_tests, video_phase])
      · exact Or.inr (by rw [← ha]; simp [run_tests, video_phase])
    · rcases assert_test_pass_or_fail (test_video_validity e) "Video is a valid file" with ha|ha
      · exact Or.inl (by rw [← ha]; simp [run_tests, video_phase])
      · exact Or.inr (by rw [← ha]; simp [run_tests, video_phase])
    · rcases assert_test_pass_or_fail (test_video_fps cfg e) "Video FPS is correct" with ha|ha
      · exact Or.inl (by rw [← ha]; simp [run_tests, video_phase])
      · exact Or.inr (by rw [← ha]; simp [run_tests, video_phase])
    · rcases assert_test_pass_or_fail (test_video_audio e) "Audio track detected in video" with ha|ha
      · exact Or.inl (by rw [← ha]; simp [run_tests, video_phase])
      · exact Or.inr (by rw [← ha]; simp [run_tests, video_phase])

/-- C4 witness: in the concrete session where the image never appears, the
image-exists verdict is absent and the skip line is present. -/
theorem capture_failure_skips_image_checks_witness :
    LogEntry.pass "Image exists" ∉ run_tests cfg30 baseEnv
    ∧ LogEntry.info "Skipping image tests due to failed capture." ∈ run_tests cfg30 baseEnv :=
  ⟨((capture_failure_skips_image_checks cfg30 baseEnv (fun i _ => rfl)).1 "Image exists"
      (by simp [imageCheckMessages])).1,
   (capture_failure_skips_image_checks cfg30 baseEnv (fun i _ => rfl)).2.1⟩

/-- C8: at startup the entry point exits with code 1 and a printed message
— constructing no test session — whenever the detected device list is
empty, or, in interactive mode with a selection other than the literal
`all`, the input is non-numeric or its index is out of range. -/
theorem entry_point_invalid_selection_exits (e : MainEnv) :
    (e.cameras = [] →
      mainOutcome e = .exitWith "No cameras detected." 1
      ∧ constructedSessions (mainOutcome e) = [])
    ∧ (interactiveMode e → pyLower (pyStrip e.userInput) ≠ "all" →
      pyInt (pyStrip e.userInput) = none →
      mainOutcome e = .exitWith "Invalid input." 1
      ∧ constructedSessions (mainOutcome e) = [])
    ∧ (interactiveMode e → pyLower (pyStrip e.userInput) ≠ "all" →
      ∀ n : Int, pyInt (pyStrip e.userInput) = some n →
      (n - 1 < 0 ∨ (e.cameras.length : Int) ≤ n - 1) →
      mainOutcome e = .exitWith "Invalid selection." 1
      ∧ constructedSessions (mainOutcome e) = []) := by
  refine ⟨?_, ?_, ?_⟩
  · intro hc
    simp [mainOutcome, hc, constructedSessions]
  · rintro ⟨hne, hdev, hdock⟩ hall hint
    rcases hcams : e.cameras with _ | ⟨c, rest⟩
    · exact absurd hcams hne
    · simp [mainOutcome, hcams, hdev, hdock, hall, hint, constructedSessions]
  · rintro ⟨hne, hdev, hdock⟩ hall n hn hrange
    rcases hcams : e.cameras with _ | ⟨c, rest⟩
    · exact absurd hcams hne
    · rw [hcams] at hrange
      have hmain : mainOutcome e = .exitWith "Invalid selection." 1 := by
        simp only [mainOutcome, hcams, hdev, hdock, Bool.false_eq_true, if_false]
        simp only [hall, if_false, hn]
        rw [if_pos hrange]
      exact ⟨hmain, by rw [hmain]; rfl⟩

/-- C8 witness: an empty device list, the non-numeric interactive input
`abc`, and the out-of-range interactive input `5` against one detected
device each terminate with exit code 1 and construct no session. -/
theorem entry_point_invalid_selection_exits_witness :
    mainOutcome mainEnvNoCameras = .exitWith "No cameras detected." 1
    ∧ mainOutcome mainEnvBadInput = .exitWith "Invalid input." 1
    ∧ mainOutcome mainEnvOutOfRange = .exitWith "Invalid selection." 1
    ∧ constructedSessions (mainOutcome mainEnvOutOfRange) = [] :=
  ⟨((entry_point_invalid_selection_exits mainEnvNoCameras).1 rfl).1,
   ((entry_point_invalid_selection_exits mainEnvBadInput).2.1
      ⟨by decide, rfl, rfl⟩ (by decide) (by decide)).1,
   ((entry_point_invalid_selection_exits mainEnvOutOfRange).2.2
      ⟨by decide, rfl, rfl⟩ (by decide) 5 (by decide) (by decide)).1,
   ((entry_point_invalid_selection_exits mainEnvOutOfRange).2.2
      ⟨by decide, rfl, rfl⟩ (by decide) 5 (by decide) (by decide)).2⟩
